import Mathlib

/-
Shallow embedding of the health-data classification / aggregation / export
pipeline of the health-feedback-form repository.

Part 1 models the Classifier of the survey form script
(`HealthFeedbackApp.classifyHealth`, `identifyRiskFactors`,
`calculateHealthScore`).  Survey field values are modelled as `String`,
medical-condition tags as `List String`, and the JS numbers that occur in
scoring as `Int` (all scores in the source are integral).

Part 2 models the dashboard data manager (`HealthDataManager`):
capacity-trimmed insertion, retention cleanup, statistics aggregation and
the JSON/CSV exporters.  Timestamps are modelled as integer milliseconds
since the Unix epoch (the source stores ISO-8601 strings and compares the
corresponding instants); the runtime is assumed to be in the UTC timezone,
so local-time and UTC date components coincide.
-/

namespace HealthFeedbackApp

/-- Lifestyle fields of one survey response, as collected by the form. -/
structure Lifestyle where
  physicalActivity : String
  dietHabits : String
  sleepHours : String
  smoking : String
  alcohol : String
  deriving DecidableEq, Repr

/-- The part of a survey response read by the Classifier. -/
structure Response where
  lifestyle : Lifestyle
  overallHealth : String
  medicalConditions : List String
  deriving DecidableEq, Repr

/-- One healthy/abnormal bucket table of `this.healthThresholds`. -/
structure Buckets where
  healthy : List String
  abnormal : List String
  deriving DecidableEq, Repr

/-- `this.healthThresholds.physicalActivity` from the form script. -/
def physicalActivityThresholds : Buckets :=
  { healthy := ["moderate", "active", "very-active"]
    abnormal := ["sedentary", "light"] }

/-- `this.healthThresholds.sleepHours` from the form script. -/
def sleepHoursThresholds : Buckets :=
  { healthy := ["7-8", "9-10"]
    abnormal := ["less-than-5", "5-6", "more-than-10"] }

/-- `this.healthThresholds.smoking` from the form script. -/
def smokingThresholds : Buckets :=
  { healthy := ["never"]
    abnormal := ["former", "occasional", "regular"] }

/-- `this.healthThresholds.alcohol` from the form script. -/
def alcoholThresholds : Buckets :=
  { healthy := ["never", "rarely", "moderate"]
    abnormal := ["regular"] }

/-- `this.healthThresholds.overallHealth` from the form script. -/
def overallHealthThresholds : Buckets :=
  { healthy := ["excellent", "good"]
    abnormal := ["fair", "poor"] }

/-- `this.riskConditions`: medical-condition tags treated as risk indicators. -/
def riskConditions : List String :=
  ["diabetes", "hypertension", "heart-disease", "asthma",
   "arthritis", "depression", "anxiety", "obesity"]

/-- One `if healthy.includes(v) healthyCount++ else if abnormal.includes(v)
abnormalCount++` block of `classifyHealth`, acting on the running
(healthyCount, abnormalCount) pair. -/
def voteStep (b : Buckets) (v : String) (counts : Nat × Nat) : Nat × Nat :=
  if b.healthy.contains v then (counts.1 + 1, counts.2)
  else if b.abnormal.contains v then (counts.1, counts.2 + 1)
  else counts

/-- The medical-conditions block of `classifyHealth`: a risk tag other than
"none" adds 2 abnormal votes, otherwise a "none" tag adds 1 healthy vote. -/
def medicalVoteStep (conds : List String) (counts : Nat × Nat) : Nat × Nat :=
  if conds.any (fun c => riskConditions.contains c && c != "none") then
    (counts.1, counts.2 + 2)
  else if conds.contains "none" then (counts.1 + 1, counts.2)
  else counts

/-- The (healthyCount, abnormalCount) accumulation of
`HealthFeedbackApp.classifyHealth`, in the order of the source. -/
def classifyVotes (data : Response) : Nat × Nat :=
  let counts : Nat × Nat := (0, 0)
  let counts := voteStep physicalActivityThresholds data.lifestyle.physicalActivity counts
  let counts := voteStep sleepHoursThresholds data.lifestyle.sleepHours counts
  let counts := voteStep smokingThresholds data.lifestyle.smoking counts
  let counts := voteStep alcoholThresholds data.lifestyle.alcohol counts
  let counts := voteStep overallHealthThresholds data.overallHealth counts
  medicalVoteStep data.medicalConditions counts

/-- `HealthFeedbackApp.classifyHealth`: compare the two vote counts. -/
def classifyHealth (data : Response) : String :=
  let counts := classifyVotes data
  if counts.2 > counts.1 then "abnormal"
  else if counts.1 > counts.2 then "healthy"
  else "moderate"

/-- Replace the first hyphen by a space: JS `s.replace('-', ' ')`. -/
def replaceFirstHyphen : List Char → List Char
  | [] => []
  | c :: rest => if c = '-' then ' ' :: rest else c :: replaceFirstHyphen rest

/-- JS word character, the `\w` class: letters, digits and underscore. -/
def isWordChar (c : Char) : Bool := c.isAlphanum || c = '_'

/-- Uppercase every word character that starts a word, i.e. the JS
`s.replace(/\b\w/g, l => l.toUpperCase())`; the Bool argument records
whether the previous character was a word character. -/
def upperAtWordStart : Bool → List Char → List Char
  | _, [] => []
  | prev, c :: rest =>
    (if isWordChar c && !prev then c.toUpper else c) :: upperAtWordStart (isWordChar c) rest

/-- The tag-to-label transformation of `identifyRiskFactors`:
`condition.replace('-', ' ').replace(/\b\w/g, l => l.toUpperCase())`. -/
def titleCaseJs (s : String) : String :=
  String.mk (upperAtWordStart false (replaceFirstHyphen s.data))

/-- `HealthFeedbackApp.identifyRiskFactors`: lifestyle risk labels pushed in
source order, then the title-cased risk medical tags. -/
def identifyRiskFactors (data : Response) : List String :=
  let riskFactors : List String := []
  let riskFactors :=
    if data.lifestyle.physicalActivity = "sedentary" then
      riskFactors ++ ["Sedentary lifestyle"] else riskFactors
  let riskFactors :=
    if data.lifestyle.sleepHours = "less-than-5" ∨ data.lifestyle.sleepHours = "more-than-10" then
      riskFactors ++ ["Poor sleep patterns"] else riskFactors
  let riskFactors :=
    if data.lifestyle.smoking = "regular" ∨ data.lifestyle.smoking = "occasional" then
      riskFactors ++ ["Smoking"] else riskFactors
  let riskFactors :=
    if data.lifestyle.alcohol = "regular" then
      riskFactors ++ ["High alcohol consumption"] else riskFactors
  let riskFactors :=
    if data.lifestyle.dietHabits = "fast-food" then
      riskFactors ++ ["Poor diet habits"] else riskFactors
  let medicalRisks := data.medicalConditions.filter (fun c => riskConditions.contains c)
  riskFactors ++ medicalRisks.map titleCaseJs

/-- `lookup table value || 0`: score-table access of `calculateHealthScore`. -/
def scoreLookup : List (String × Int) → String → Int
  | [], _ => 0
  | (k, s) :: rest, v => if k = v then s else scoreLookup rest v

/-- The `activityScores` table of `calculateHealthScore`. -/
def activityScores : List (String × Int) :=
  [("very-active", 20), ("active", 15), ("moderate", 10), ("light", 5), ("sedentary", -10)]

/-- The `sleepScores` table of `calculateHealthScore`. -/
def sleepScores : List (String × Int) :=
  [("7-8", 15), ("9-10", 10), ("5-6", 5), ("less-than-5", -15), ("more-than-10", -5)]

/-- The `smokingScores` table of `calculateHealthScore`. -/
def smokingScores : List (String × Int) :=
  [("never", 10), ("former", 5), ("occasional", -5), ("regular", -20)]

/-- The `alcoholScores` table of `calculateHealthScore`. -/
def alcoholScores : List (String × Int) :=
  [("never", 5), ("rarely", 5), ("moderate", 0), ("regular", -10)]

/-- The `healthScores` table (overall health) of `calculateHealthScore`. -/
def healthScores : List (String × Int) :=
  [("excellent", 20), ("good", 10), ("fair", -5), ("poor", -20)]

/-- `HealthFeedbackApp.calculateHealthScore`: base 50, per-field deltas,
10 off per risk tag, 10 on for "none", clamped to [0, 100]. -/
def calculateHealthScore (data : Response) : Int :=
  let score : Int := 50
  let score := score + scoreLookup activityScores data.lifestyle.physicalActivity
  let score := score + scoreLookup sleepScores data.lifestyle.sleepHours
  let score := score + scoreLookup smokingScores data.lifestyle.smoking
  let score := score + scoreLookup alcoholScores data.lifestyle.alcohol
  let score := score + scoreLookup healthScores data.overallHealth
  let riskConditionCount :=
    (data.medicalConditions.filter (fun c => riskConditions.contains c)).length
  let score := score - (riskConditionCount : Int) * 10
  let score := if data.medicalConditions.contains "none" then score + 10 else score
  max 0 (min 100 score)

/-- Specification-side vote of a single field: +1 healthy or +1 abnormal
according to the fixed bucket tables, nothing when the value is in
neither bucket. -/
def bucketVote (b : Buckets) (v : String) : Nat × Nat :=
  if b.healthy.contains v then (1, 0)
  else if b.abnormal.contains v then (0, 1)
  else (0, 0)

/-- Specification-side medical vote: +2 abnormal on presence of any risk tag
other than "none", else +1 healthy on presence of the "none" tag. -/
def medicalVote (conds : List String) : Nat × Nat :=
  if conds.any (fun c => riskConditions.contains c && c != "none") then (0, 2)
  else if conds.contains "none" then (1, 0)
  else (0, 0)

/-- Specification-side healthy-vote count: one independent vote per field
plus the medical-condition vote. -/
def specHealthyVotes (data : Response) : Nat :=
  (bucketVote physicalActivityThresholds data.lifestyle.physicalActivity).1 +
  (bucketVote sleepHoursThresholds data.lifestyle.sleepHours).1 +
  (bucketVote smokingThresholds data.lifestyle.smoking).1 +
  (bucketVote alcoholThresholds data.lifestyle.alcohol).1 +
  (bucketVote overallHealthThresholds data.overallHealth).1 +
  (medicalVote data.medicalConditions).1

/-- Specification-side abnormal-vote count: one independent vote per field
plus the medical-condition vote. -/
def specAbnormalVotes (data : Response) : Nat :=
  (bucketVote physicalActivityThresholds data.lifestyle.physicalActivity).2 +
  (bucketVote sleepHoursThresholds data.lifestyle.sleepHours).2 +
  (bucketVote smokingThresholds data.lifestyle.smoking).2 +
  (bucketVote alcoholThresholds data.lifestyle.alcohol).2 +
  (bucketVote overallHealthThresholds data.overallHealth).2 +
  (medicalVote data.medicalConditions).2

/-- Specification-side list of lifestyle risk labels, one independent
optional label per field, concatenated in the fixed field order. -/
def specLifestyleRiskFactors (data : Response) : List String :=
  (if data.lifestyle.physicalActivity = "sedentary" then ["Sedentary lifestyle"] else []) ++
  (if data.lifestyle.sleepHours = "less-than-5" ∨ data.lifestyle.sleepHours = "more-than-10" then
    ["Poor sleep patterns"] else []) ++
  (if data.lifestyle.smoking = "regular" ∨ data.lifestyle.smoking = "occasional" then
    ["Smoking"] else []) ++
  (if data.lifestyle.alcohol = "regular" then ["High alcohol consumption"] else []) ++
  (if data.lifestyle.dietHabits = "fast-food" then ["Poor diet habits"] else [])

/-- The worked example of the specification: sedentary activity, 7-8 hours
of sleep, never smoking, never drinking, good overall health, and the
"none" medical-condition tag. -/
def exampleResponse : Response :=
  { lifestyle :=
      { physicalActivity := "sedentary"
        dietHabits := "balanced"
        sleepHours := "7-8"
        smoking := "never"
        alcohol := "never" }
    overallHealth := "good"
    medicalConditions := ["none"] }

/-- A response that differs from the worked example only in being a former
smoker; used to probe the smoking risk label. -/
def formerSmokerResponse : Response :=
  { lifestyle :=
      { physicalActivity := "moderate"
        dietHabits := "balanced"
        sleepHours := "7-8"
        smoking := "former"
        alcohol := "never" }
    overallHealth := "good"
    medicalConditions := ["none"] }

end HealthFeedbackApp

namespace HealthDataManager

open HealthFeedbackApp (Lifestyle riskConditions)

/-- Civil date (year, month, day) of a day count since 1970-01-01,
the standard days-to-civil conversion used to model JS `Date` UTC
component extraction. -/
def civilFromDays (z : Int) : Int × Int × Int :=
  let z := z + 719468
  let era := z.fdiv 146097
  let doe := z - era * 146097
  let yoe := (doe - doe / 1460 + doe / 36524 - doe / 146096) / 365
  let y := yoe + era * 400
  let doy := doe - (365 * yoe + yoe / 4 - yoe / 100)
  let mp := (5 * doy + 2) / 153
  let d := doy - (153 * mp + 2) / 5 + 1
  let m := if mp < 10 then mp + 3 else mp - 9
  (if m ≤ 2 then y + 1 else y, m, d)

/-- Day count since 1970-01-01 of a civil date, the inverse conversion;
models JS `new Date(year, month, day)` at UTC midnight. -/
def daysFromCivil (year m d : Int) : Int :=
  let y := if m ≤ 2 then year - 1 else year
  let era := y.fdiv 400
  let yoe := y - era * 400
  let mp := if m > 2 then m - 3 else m + 9
  let doy := (153 * mp + 2) / 5 + d - 1
  let doe := yoe * 365 + yoe / 4 - yoe / 100 + doy
  era * 146097 + doe - 719468

/-- Left-pad a nonnegative integer to two digits. -/
def pad2 (n : Int) : String :=
  if n < 10 then "0" ++ toString n else toString n

/-- Left-pad a nonnegative integer to three digits. -/
def pad3 (n : Int) : String :=
  if n < 10 then "00" ++ toString n
  else if n < 100 then "0" ++ toString n
  else toString n

/-- Date part of the ISO string of an instant (milliseconds since epoch):
`new Date(t).toISOString().split('T')[0]`. -/
def isoDatePart (t : Int) : String :=
  let ymd := civilFromDays (t.fdiv 86400000)
  toString ymd.1 ++ "-" ++ pad2 ymd.2.1 ++ "-" ++ pad2 ymd.2.2

/-- Full ISO-8601 string of an instant: `new Date(t).toISOString()`. -/
def jsISOString (t : Int) : String :=
  let ms := t - t.fdiv 86400000 * 86400000
  isoDatePart t ++ "T" ++ pad2 (ms / 3600000) ++ ":" ++ pad2 (ms % 3600000 / 60000) ++
    ":" ++ pad2 (ms % 60000 / 1000) ++ "." ++ pad3 (ms % 1000) ++ "Z"

/-- `Math.ceil(a / b)` for a positive divisor. -/
def jsCeilDiv (a b : Int) : Int := -((-a).fdiv b)

/-- `HealthDataManager.getWeekKey`: year plus a week number computed from
the day-of-year offset by the weekday of January 1 (UTC assumed). -/
def getWeekKey (t : Int) : String :=
  let year := (civilFromDays (t.fdiv 86400000)).1
  let startOfYear := daysFromCivil year 1 1
  let days := (t - startOfYear * 86400000).fdiv 86400000
  let week := jsCeilDiv (days + (startOfYear + 4).fmod 7 + 1) 7
  toString year ++ "-W" ++ pad2 week

/-- The monthly trend key: `getFullYear()-getMonth()+1` zero-padded. -/
def monthKey (t : Int) : String :=
  let ymd := civilFromDays (t.fdiv 86400000)
  toString ymd.1 ++ "-" ++ pad2 ymd.2.1

/-- `location.split(',')[0].trim()`: first comma-separated segment. -/
def firstSegment (s : String) : String :=
  (s.takeWhile (fun c => c ≠ ',')).trim

/-- Demographic fields of a stored submission. -/
structure Demographics where
  ageGroup : String
  gender : String
  location : String
  deriving DecidableEq, Repr

/-- One stored submission of the dashboard data manager: the survey fields
plus the derived classification fields.  The timestamp is the stored
instant in milliseconds since the epoch. -/
structure Submission where
  timestamp : Int
  demographics : Demographics
  lifestyle : Lifestyle
  medicalConditions : List String
  overallHealth : String
  healthScore : Int
  healthClassification : String
  riskFactors : List String
  deriving DecidableEq, Repr

/-- A JS object used as a frequency counter: association list in key
insertion order. -/
abbrev Counter : Type := List (String × Nat)

/-- Value of a counter at a key, 0 when absent: `obj[key] || 0`. -/
def counterGet : Counter → String → Nat
  | [], _ => 0
  | (k, v) :: rest, key => if k = key then v else counterGet rest key

/-- `obj[key] = (obj[key] || 0) + 1`: bump in place, or append a new key. -/
def counterBump : Counter → String → Counter
  | [], key => [(key, 1)]
  | (k, v) :: rest, key =>
    if k = key then (k, v + 1) :: rest else (k, v) :: counterBump rest key

/-- `HealthDataManager.incrementCounter`: skip empty keys, else bump. -/
def incrementCounter (obj : Counter) (key : String) : Counter :=
  if key = "" then obj else counterBump obj key

/-- The fixed five-bucket score distribution object. -/
structure Distribution where
  b0to20 : Nat
  b21to40 : Nat
  b41to60 : Nat
  b61to80 : Nat
  b81to100 : Nat
  deriving DecidableEq, Repr

/-- The `healthScores` aggregate of the statistics record. -/
structure ScoreStats where
  average : Int
  min : Int
  max : Int
  distribution : Distribution
  deriving DecidableEq, Repr

/-- The `demographics` counters of the statistics record. -/
structure DemographicsStats where
  ageGroups : Counter
  genders : Counter
  locations : Counter
  deriving DecidableEq, Repr

/-- The `lifestyle` counters of the statistics record. -/
structure LifestyleStats where
  physicalActivity : Counter
  dietHabits : Counter
  sleepHours : Counter
  smoking : Counter
  alcohol : Counter
  deriving DecidableEq, Repr

/-- The `trends` counters of the statistics record. -/
structure TrendsStats where
  daily : Counter
  weekly : Counter
  monthly : Counter
  deriving DecidableEq, Repr

/-- The StatisticsSummary record written by `updateStatistics`. -/
structure Stats where
  totalSubmissions : Nat
  lastUpdated : String
  demographics : DemographicsStats
  lifestyle : LifestyleStats
  healthClassifications : Counter
  medicalConditions : Counter
  healthScores : ScoreStats
  riskFactors : Counter
  trends : TrendsStats
  deriving DecidableEq, Repr

/-- `HealthDataManager.createInitialStatistics`, with the clock reading
made explicit. -/
def createInitialStatistics (now : Int) : Stats :=
  { totalSubmissions := 0
    lastUpdated := jsISOString now
    demographics := { ageGroups := [], genders := [], locations := [] }
    lifestyle :=
      { physicalActivity := [], dietHabits := [], sleepHours := [], smoking := [], alcohol := [] }
    healthClassifications := [("healthy", 0), ("moderate", 0), ("abnormal", 0)]
    medicalConditions := []
    healthScores :=
      { average := 0, min := 100, max := 0
        distribution := { b0to20 := 0, b21to40 := 0, b41to60 := 0, b61to80 := 0, b81to100 := 0 } }
    riskFactors := []
    trends := { daily := [], weekly := [], monthly := [] } }

/-- The score-distribution bump of `updateStatistics`: the if/else-if chain
over the five fixed buckets. -/
def bumpDistribution (d : Distribution) (score : Int) : Distribution :=
  if score ≤ 20 then { d with b0to20 := d.b0to20 + 1 }
  else if score ≤ 40 then { d with b21to40 := d.b21to40 + 1 }
  else if score ≤ 60 then { d with b41to60 := d.b41to60 + 1 }
  else if score ≤ 80 then { d with b61to80 := d.b61to80 + 1 }
  else { d with b81to100 := d.b81to100 + 1 }

/-- The body of the `submissions.forEach` loop of `updateStatistics`,
threading the statistics record together with the running score total,
minimum and maximum. -/
def statsStep (acc : Stats × Int × Int × Int) (sub : Submission) : Stats × Int × Int × Int :=
  let stats := acc.1
  let demographics : DemographicsStats :=
    { ageGroups := incrementCounter stats.demographics.ageGroups sub.demographics.ageGroup
      genders := incrementCounter stats.demographics.genders sub.demographics.gender
      locations := incrementCounter stats.demographics.locations (firstSegment sub.demographics.location) }
  let lifestyle : LifestyleStats :=
    { physicalActivity := incrementCounter stats.lifestyle.physicalActivity sub.lifestyle.physicalActivity
      dietHabits := incrementCounter stats.lifestyle.dietHabits sub.lifestyle.dietHabits
      sleepHours := incrementCounter stats.lifestyle.sleepHours sub.lifestyle.sleepHours
      smoking := incrementCounter stats.lifestyle.smoking sub.lifestyle.smoking
      alcohol := incrementCounter stats.lifestyle.alcohol sub.lifestyle.alcohol }
  let healthClassifications := incrementCounter stats.healthClassifications sub.healthClassification
  let medicalConditions :=
    sub.medicalConditions.foldl
      (fun m c => if c ≠ "none" then incrementCounter m c else m) stats.medicalConditions
  let score := sub.healthScore
  let distribution := bumpDistribution stats.healthScores.distribution score
  let riskFactors := sub.riskFactors.foldl (fun m f => incrementCounter m f) stats.riskFactors
  let trends : TrendsStats :=
    { daily := incrementCounter stats.trends.daily (isoDatePart sub.timestamp)
      weekly := incrementCounter stats.trends.weekly (getWeekKey sub.timestamp)
      monthly := incrementCounter stats.trends.monthly (monthKey sub.timestamp) }
  ({ stats with
      demographics := demographics
      lifestyle := lifestyle
      healthClassifications := healthClassifications
      medicalConditions := medicalConditions
      healthScores := { stats.healthScores with distribution := distribution }
      riskFactors := riskFactors
      trends := trends },
   acc.2.1 + score, min acc.2.2.1 score, max acc.2.2.2 score)

/-- `Math.round(a / n)` for a positive denominator: floor of a/n + 1/2. -/
def jsRoundDiv (a : Int) (n : Int) : Int := (2 * a + n).fdiv (2 * n)

/-- The statistics record as it stands before the `forEach` pass of
`updateStatistics`: the initial structure with the total and the clock
stamp filled in. -/
def initialStatsFor (submissions : List Submission) (now : Int) : Stats :=
  { createInitialStatistics now with
      totalSubmissions := submissions.length
      lastUpdated := jsISOString now }

/-- `HealthDataManager.updateStatistics` as a pure function of the
submissions collection and the clock reading: rebuild the statistics
record by one pass over the collection. -/
def updateStatisticsPure (submissions : List Submission) (now : Int) : Stats :=
  let init : Stats := initialStatsFor submissions now
  let acc := submissions.foldl statsStep (init, 0, 100, 0)
  let stats := acc.1
  { stats with
      healthScores :=
        { stats.healthScores with
            average :=
              if submissions.length > 0 then jsRoundDiv acc.2.1 (submissions.length : Int) else 0
            min := if submissions.length > 0 then acc.2.2.1 else 0
            max := if submissions.length > 0 then acc.2.2.2 else 0 } }

/-- A statistics record with its `lastUpdated` stamp blanked out; used to
compare aggregation outputs up to the export timestamp. -/
def stripTimestamp (st : Stats) : Stats := { st with lastUpdated := "" }

/-- The storage mutation of `HealthDataManager.addSubmission` (validation
assumed passed): trim the oldest entries when the configured maximum is
reached, then append the new submission. -/
def addSubmissionPure (submissions : List Submission) (maxSubmissions : Nat)
    (newSub : Submission) : List Submission :=
  if submissions.length ≥ maxSubmissions then
    let excessCount := submissions.length - maxSubmissions + 1
    submissions.drop excessCount ++ [newSub]
  else
    submissions ++ [newSub]

/-- `HealthDataManager.cleanupOldData` as a pure function: keep exactly the
submissions whose instant is strictly newer than the cutoff
`now - dataRetentionDays * 24*60*60*1000`. -/
def cleanupOldDataPure (submissions : List Submission) (dataRetentionDays : Int)
    (now : Int) : List Submission :=
  let retentionMs := dataRetentionDays * 24 * 60 * 60 * 1000
  let cutoff := now - retentionMs
  submissions.filter (fun sub => cutoff < sub.timestamp)

/-- The settings record of the dashboard data manager. -/
structure Settings where
  dataRetentionDays : Int
  maxSubmissions : Nat
  exportFormat : String
  anonymizeData : Bool
  lastCleanup : Option Int
  deriving DecidableEq, Repr

/-- A value placed in one CSV cell: the submission fields are strings
except the numeric health score. -/
inductive CsvValue where
  | str (s : String)
  | num (n : Int)
  deriving DecidableEq, Repr

/-- JS `field.includes(c)` for a single character. -/
def jsIncludesChar (s : String) (c : Char) : Bool := s.data.contains c

/-- `field.replace(/"/g, doubled)`: every quote character doubled. -/
def doubleQuotes (f : String) : String :=
  (f.data.map (fun c => if c = '"' then "\"\"" else String.mk [c])).foldl (· ++ ·) ""

/-- One cell as emitted by `exportAsCSV`: a string containing the delimiter
is wrapped in quotes with embedded quotes doubled, any other value is
emitted verbatim. -/
def csvField (v : CsvValue) : String :=
  match v with
  | .num n => toString n
  | .str f => if jsIncludesChar f ',' then "\"" ++ doubleQuotes f ++ "\"" else f

/-- JS `format.toLowerCase()`: lower-case every character. -/
def jsToLowerCase (s : String) : String := String.mk (s.data.map Char.toLower)

/-- The fixed CSV header row of `exportAsCSV`. -/
def csvHeaders : List String :=
  ["Timestamp", "Age Group", "Gender", "Location", "Physical Activity",
   "Diet Habits", "Sleep Hours", "Smoking", "Alcohol", "Medical Conditions",
   "Overall Health", "Health Score", "Health Classification", "Risk Factors"]

/-- One data row of `exportAsCSV`, in header order. -/
def csvRow (sub : Submission) : List CsvValue :=
  [.str (jsISOString sub.timestamp),
   .str sub.demographics.ageGroup,
   .str sub.demographics.gender,
   .str sub.demographics.location,
   .str sub.lifestyle.physicalActivity,
   .str sub.lifestyle.dietHabits,
   .str sub.lifestyle.sleepHours,
   .str sub.lifestyle.smoking,
   .str sub.lifestyle.alcohol,
   .str (String.intercalate "; " sub.medicalConditions),
   .str sub.overallHealth,
   .num sub.healthScore,
   .str sub.healthClassification,
   .str (String.intercalate "; " sub.riskFactors)]

/-- The assembled CSV text: header row then one escaped row per submission. -/
def csvContent (submissions : List Submission) : String :=
  String.intercalate "\n"
    (String.intercalate "," csvHeaders ::
      submissions.map (fun sub => String.intercalate "," ((csvRow sub).map csvField)))

/-- The metadata block of the structured (JSON) export. -/
structure ExportMetadata where
  exportDate : String
  totalSubmissions : Nat
  dataVersion : String
  source : String
  deriving DecidableEq, Repr

/-- The structured record assembled by `exportData`; an omitted section is
the empty object, modelled as `none`. -/
structure ExportRecord where
  metadata : ExportMetadata
  submissions : List Submission
  statistics : Option Stats
  settings : Option Settings
  deriving DecidableEq, Repr

/-- The structured result returned by the exporters: a success flag with
either an error message or the produced payload; throwing past the export
boundary is modelled as impossible by totality of these functions. -/
structure ExportResult where
  success : Bool
  error : Option String
  jsonData : Option ExportRecord
  content : Option String
  filename : Option String
  deriving DecidableEq, Repr

/-- The export options object: absent flags are `none`. -/
structure ExportOptions where
  includeSubmissions : Option Bool
  includeStatistics : Option Bool
  includeSettings : Option Bool
  deriving DecidableEq, Repr

/-- `HealthDataManager.exportAsJSON`: always succeeds on the assembled
record (serialization of this data cannot fail). -/
def exportAsJSON (data : ExportRecord) (now : Int) : ExportResult :=
  { success := true
    error := none
    jsonData := some data
    content := none
    filename := some ("health-feedback-data-" ++ isoDatePart now ++ ".json") }

/-- `HealthDataManager.exportAsCSV`: an empty collection yields the caught
"No data to export" failure result, otherwise the CSV text. -/
def exportAsCSV (submissions : List Submission) (now : Int) : ExportResult :=
  if submissions.length = 0 then
    { success := false, error := some "No data to export",
      jsonData := none, content := none, filename := none }
  else
    { success := true
      error := none
      jsonData := none
      content := some (csvContent submissions)
      filename := some ("health-feedback-submissions-" ++ isoDatePart now ++ ".csv") }

/-- `HealthDataManager.exportData`: assemble the structured record per the
options, then dispatch on the lower-cased format; an unknown format is the
caught failure result. -/
def exportData (format : String) (options : ExportOptions)
    (submissions : List Submission) (statistics : Stats) (settings : Settings)
    (now : Int) : ExportResult :=
  let data : ExportRecord :=
    { metadata :=
        { exportDate := jsISOString now
          totalSubmissions := submissions.length
          dataVersion := "1.0"
          source := "Health Feedback Form" }
      submissions := if options.includeSubmissions ≠ some false then submissions else []
      statistics := if options.includeStatistics ≠ some false then some statistics else none
      settings := if options.includeSettings = some true then some settings else none }
  match jsToLowerCase format with
  | "json" => exportAsJSON data now
  | "csv" => exportAsCSV submissions now
  | _ =>
    { success := false, error := some ("Unsupported export format: " ++ format),
      jsonData := none, content := none, filename := none }

/-- A concrete stored submission used by counterexamples and witnesses. -/
def exampleSubmission : Submission :=
  { timestamp := 0
    demographics := { ageGroup := "25-34", gender := "female", location := "Pune, India" }
    lifestyle :=
      { physicalActivity := "moderate", dietHabits := "balanced", sleepHours := "7-8",
        smoking := "never", alcohol := "never" }
    medicalConditions := ["none"]
    overallHealth := "good"
    healthScore := 90
    healthClassification := "healthy"
    riskFactors := [] }

/-- A second concrete stored submission, one day later. -/
def exampleSubmission2 : Submission :=
  { exampleSubmission with
      timestamp := 86400000
      healthScore := 40
      healthClassification := "moderate" }

/-- Sum of the three classification counters of a statistics record. -/
def classSum (c : Counter) : Nat :=
  counterGet c "healthy" + counterGet c "moderate" + counterGet c "abnormal"

/-- Sum of the five score-distribution buckets. -/
def distSum (d : Distribution) : Nat :=
  d.b0to20 + d.b21to40 + d.b41to60 + d.b61to80 + d.b81to100

end HealthDataManager

open HealthFeedbackApp HealthDataManager

lemma voteStep_add (b : Buckets) (v : String) (h a : Nat) :
    voteStep b v (h, a) = (h + (bucketVote b v).1, a + (bucketVote b v).2) := by
  unfold voteStep bucketVote
  split_ifs <;> simp

lemma medicalVoteStep_add (conds : List String) (h a : Nat) :
    medicalVoteStep conds (h, a) = (h + (medicalVote conds).1, a + (medicalVote conds).2) := by
  unfold medicalVoteStep medicalVote
  split_ifs <;> simp

lemma classifyVotes_eq_spec (data : Response) :
    classifyVotes data = (specHealthyVotes data, specAbnormalVotes data) := by
  unfold classifyVotes specHealthyVotes specAbnormalVotes
  simp only [voteStep_add, medicalVoteStep_add, Prod.mk.injEq]
  omega

/-- C1: for every Response, the classifier returns "abnormal" when the
abnormal votes exceed the healthy votes, "healthy" when the healthy votes
exceed the abnormal votes, and "moderate" on a tie, where the vote counts
are the independent per-field bucket votes plus the medical-condition
vote (+2 abnormal on any risk tag other than "none", else +1 healthy on
the "none" tag). -/
theorem classifyHealth_vote_comparison (r : Response) :
    classifyHealth r =
      if specAbnormalVotes r > specHealthyVotes r then "abnormal"
      else if specHealthyVotes r > specAbnormalVotes r then "healthy"
      else "moderate" := by
  unfold classifyHealth
  simp only [classifyVotes_eq_spec]

/-- C2: for every input Response, whatever its field values (including
unrecognized enum values and arbitrarily many risk tags), the health
score is an integer in the closed interval [0, 100]; integrality is
inherent in the `Int`-valued embedding of the score arithmetic. -/
theorem calculateHealthScore_in_range (r : Response) :
    0 ≤ calculateHealthScore r ∧ calculateHealthScore r ≤ 100 := by
  unfold calculateHealthScore
  refine ⟨le_max_left 0 _, max_le (by norm_num) (min_le_left _ _)⟩

/-- C3 counterexample: on the spec's worked example (sedentary, 7-8 hours,
never smoking, never drinking, good health, "none" tag) the per-field
deltas sum from the base 50 to 90, not to 100 as the claim states. -/
theorem example_score_ninety_cex :
    calculateHealthScore exampleResponse = 90 ∧ calculateHealthScore exampleResponse ≠ 100 := by
  decide

/-- C3 amended: the worked example yields healthy-votes 5, abnormal-votes 1,
classification "healthy", and health score 50 - 10 + 15 + 10 + 5 + 10 +
10 = 90 (already inside the clamp range). -/
theorem example_response_classification_and_score :
    specHealthyVotes exampleResponse = 5 ∧ specAbnormalVotes exampleResponse = 1 ∧
    classifyHealth exampleResponse = "healthy" ∧
    calculateHealthScore exampleResponse = 90 := by
  decide

lemma titleCase_riskCondition_ne_smoking :
    ∀ c ∈ riskConditions, titleCaseJs c ≠ "Smoking" := by
  decide

lemma identifyRiskFactors_decomp (r : Response) :
    identifyRiskFactors r =
      specLifestyleRiskFactors r ++
        (r.medicalConditions.filter (fun c => riskConditions.contains c)).map titleCaseJs := by
  unfold identifyRiskFactors specLifestyleRiskFactors
  split_ifs <;> simp

/-- C4 counterexample: a response whose smoking status is "former" (not
"never") receives no smoking risk label at all — its risk-factor list is
empty — contradicting the claim that any status other than "never" earns
the label. -/
theorem former_smoker_no_smoking_label_cex :
    formerSmokerResponse.lifestyle.smoking = "former" ∧
    formerSmokerResponse.lifestyle.smoking ≠ "never" ∧
    identifyRiskFactors formerSmokerResponse = [] := by
  decide

/-- C4 amended: the risk-factor list is the lifestyle labels in the fixed
field order followed by the title-cased risk medical tags in submission
order, and it contains the smoking label exactly when the smoking status
is "regular" or "occasional" (a "former" smoker gets none). -/
theorem identifyRiskFactors_structure (r : Response) :
    identifyRiskFactors r =
      specLifestyleRiskFactors r ++
        (r.medicalConditions.filter (fun c => riskConditions.contains c)).map titleCaseJs ∧
    ("Smoking" ∈ identifyRiskFactors r ↔
      r.lifestyle.smoking = "regular" ∨ r.lifestyle.smoking = "occasional") := by
  refine ⟨identifyRiskFactors_decomp r, ?_⟩
  rw [identifyRiskFactors_decomp, List.mem_append]
  constructor
  · rintro (hA | hB)
    · unfold specLifestyleRiskFactors at hA
      split_ifs at hA <;> simp_all
    · exfalso
      obtain ⟨c, hc, hEq⟩ := List.mem_map.1 hB
      have hcr : c ∈ riskConditions := by
        have hmem := List.mem_filter.1 hc
        simpa using hmem.2
      exact titleCase_riskCondition_ne_smoking c hcr hEq
  · intro h
    left
    unfold specLifestyleRiskFactors
    split_ifs <;> simp_all

/-- C5 counterexample: with a configured maximum of 0 and a non-empty
collection, inserting leaves 1 stored entry, not the configured maximum
0, so the claim fails as stated for the quantified maximum N = 0. -/
theorem addSubmission_zero_capacity_cex :
    [exampleSubmission].length ≥ 0 ∧
    (addSubmissionPure [exampleSubmission] 0 exampleSubmission2).length ≠ 0 := by
  decide

/-- C5 amended: for every positive configured maximum N, inserting one
submission when the collection already holds at least N entries leaves
exactly N entries — the most recent ones including the new submission,
with the oldest dropped from the front. -/
theorem addSubmission_capacity_eviction (subs : List Submission) (maxN : Nat)
    (newSub : Submission) (h1 : 1 ≤ maxN) (h2 : maxN ≤ subs.length) :
    (addSubmissionPure subs maxN newSub).length = maxN ∧
    addSubmissionPure subs maxN newSub =
      (subs ++ [newSub]).drop (subs.length + 1 - maxN) := by
  have hge : subs.length ≥ maxN := by omega
  simp only [addSubmissionPure, if_pos hge]
  constructor
  · simp only [List.length_append, List.length_drop, List.length_cons, List.length_nil]
    omega
  · rw [List.drop_append_of_le_length (by omega),
      (by omega : subs.length - maxN + 1 = subs.length + 1 - maxN)]

/-- C5 witness: a one-element collection at capacity 1 keeps exactly the
newly inserted submission. -/
theorem addSubmission_capacity_eviction_witness :
    (addSubmissionPure [exampleSubmission] 1 exampleSubmission2).length = 1 ∧
    addSubmissionPure [exampleSubmission] 1 exampleSubmission2 =
      ([exampleSubmission] ++ [exampleSubmission2]).drop ([exampleSubmission].length + 1 - 1) :=
  addSubmission_capacity_eviction [exampleSubmission] 1 exampleSubmission2
    (by decide) (by decide)

/-- C6 counterexample: a submission exactly as old as the retention window
(age equal to the window, not strictly older) is nevertheless removed by
the cleanup, contradicting the claim that exactly the strictly-older
submissions are removed. -/
theorem cleanup_boundary_cex :
    cleanupOldDataPure [exampleSubmission] 1 86400000 = [] ∧
    ¬(86400000 - exampleSubmission.timestamp > 1 * 24 * 60 * 60 * 1000) := by
  decide

/-- C6 amended: the retention cleanup keeps exactly the submissions whose
age is strictly less than the retention window (equivalently it removes
those at least as old as the window, boundary included), and the kept
submissions form a sublist of the original collection, i.e. they are
unchanged and in their original order. -/
theorem cleanupOldData_age_filter (subs : List Submission) (ret now : Int) :
    cleanupOldDataPure subs ret now =
      subs.filter (fun sub => now - sub.timestamp < ret * 24 * 60 * 60 * 1000) ∧
    (cleanupOldDataPure subs ret now).Sublist subs := by
  constructor
  · unfold cleanupOldDataPure
    apply List.filter_congr
    intro a _
    rw [decide_eq_decide]
    omega
  · exact List.filter_sublist _


lemma statsStep_lastUpdated_set (st : Stats) (u : String) (rest : Int × Int × Int)
    (sub : Submission) :
    statsStep ({ st with lastUpdated := u }, rest) sub =
      ({ (statsStep (st, rest) sub).1 with lastUpdated := u },
        (statsStep (st, rest) sub).2) := rfl

lemma foldl_statsStep_lastUpdated_set (l : List Submission) (st : Stats) (u : String)
    (rest : Int × Int × Int) :
    l.foldl statsStep ({ st with lastUpdated := u }, rest) =
      ({ (l.foldl statsStep (st, rest)).1 with lastUpdated := u },
        (l.foldl statsStep (st, rest)).2) := by
  induction l generalizing st rest with
  | nil => rfl
  | cons a l ih =>
    simp only [List.foldl_cons]
    rw [statsStep_lastUpdated_set]
    exact ih (statsStep (st, rest) a).1 (statsStep (st, rest) a).2

lemma initialStatsFor_set_lastUpdated (subs : List Submission) (t : Int) :
    initialStatsFor subs t = { initialStatsFor subs 0 with lastUpdated := jsISOString t } := rfl

lemma stripTimestamp_set (st : Stats) (u : String) :
    stripTimestamp { st with lastUpdated := u } = stripTimestamp st := rfl

lemma updateStatisticsPure_set_lastUpdated (subs : List Submission) (t : Int) :
    updateStatisticsPure subs t =
      { updateStatisticsPure subs 0 with lastUpdated := jsISOString t } := by
  simp only [updateStatisticsPure]
  rw [initialStatsFor_set_lastUpdated subs t, foldl_statsStep_lastUpdated_set]

set_option maxHeartbeats 1000000 in
/-- C7 counterexample: recomputing the statistics over the same (empty)
collection at two different instants yields records that are not
bit-identical — the `lastUpdated` stamp is taken from the clock, so the
output is not a function of the collection's contents alone. -/
theorem updateStatistics_clock_dependence_cex :
    updateStatisticsPure [] 0 ≠ updateStatisticsPure [] 1 := by
  decide

/-- C7 amended: apart from the `lastUpdated` clock stamp, the recomputed
statistics record is a function of the submissions collection alone: two
recomputations over the same collection agree on every other field (and
recomputations at the same instant are therefore bit-identical). -/
theorem updateStatistics_pure_of_contents (subs : List Submission) (t1 t2 : Int) :
    stripTimestamp (updateStatisticsPure subs t1) =
      stripTimestamp (updateStatisticsPure subs t2) := by
  rw [updateStatisticsPure_set_lastUpdated subs t1,
    updateStatisticsPure_set_lastUpdated subs t2]
  exact (stripTimestamp_set (updateStatisticsPure subs 0) (jsISOString t1)).trans
    (stripTimestamp_set (updateStatisticsPure subs 0) (jsISOString t2)).symm

/-- C8: exporting an empty collection as delimited text (CSV) yields a
structured failure result whose message reports that there is no data,
for any options; exporting it as a structured record (JSON) succeeds and
the produced record's submissions array is empty.  Both exporters are
total functions into the structured result type, which models that no
exception escapes the export boundary. -/
theorem export_empty_collection (options : ExportOptions) (statistics : Stats)
    (settings : Settings) (now : Int) :
    (exportData "csv" options [] statistics settings now).success = false ∧
    (exportData "csv" options [] statistics settings now).error = some "No data to export" ∧
    (exportData "json" options [] statistics settings now).success = true ∧
    (exportData "json" options [] statistics settings now).jsonData.map
      ExportRecord.submissions = some [] := by
  have hc : jsToLowerCase "csv" = "csv" := by decide
  have hj : jsToLowerCase "json" = "json" := by decide
  refine ⟨?_, ?_, ?_, ?_⟩ <;>
    simp [exportData, exportAsCSV, exportAsJSON, hc, hj]

/-- C9 counterexample: a string field that contains the quote character but
not the delimiter is emitted verbatim by the CSV cell writer — it is not
wrapped in quotes and its embedded quote is not doubled, contradicting
the claim that such fields are escaped. -/
theorem csv_quote_only_field_unescaped_cex :
    csvField (.str "say \"hi\"") = "say \"hi\"" ∧
    csvField (.str "say \"hi\"") ≠ "\"say \"\"hi\"\"\"" := by
  decide

/-- C9 amended: a string field is wrapped in quotes (with every embedded
quote character doubled) exactly when it contains the delimiter
character; a string field without the delimiter is emitted verbatim even
if it contains quote characters. -/
theorem csvField_escaping_rule (f : String) :
    (jsIncludesChar f ',' = true → csvField (.str f) = "\"" ++ doubleQuotes f ++ "\"") ∧
    (jsIncludesChar f ',' = false → csvField (.str f) = f) := by
  constructor <;> intro h <;> simp [csvField, h]

/-- C9 witness: the escaping rule applied to a field with the delimiter and
a quote, and to a field with neither. -/
theorem csvField_escaping_rule_witness :
    csvField (.str "a,\"b") = "\"" ++ doubleQuotes "a,\"b" ++ "\"" ∧
    csvField (.str "plain") = "plain" :=
  ⟨(csvField_escaping_rule "a,\"b").1 (by decide),
   (csvField_escaping_rule "plain").2 (by decide)⟩

lemma counterGet_counterBump_self (c : Counter) (k : String) :
    counterGet (counterBump c k) k = counterGet c k + 1 := by
  induction c with
  | nil => simp [counterBump, counterGet]
  | cons p rest ih =>
    obtain ⟨k', v⟩ := p
    by_cases h : k' = k
    · subst h
      simp [counterBump, counterGet]
    · simp [counterBump, counterGet, h, ih]

lemma counterGet_counterBump_ne (c : Counter) (k j : String) (h : k ≠ j) :
    counterGet (counterBump c k) j = counterGet c j := by
  induction c with
  | nil => simp [counterBump, counterGet, h]
  | cons p rest ih =>
    obtain ⟨k', v⟩ := p
    by_cases hk : k' = k
    · subst hk
      simp [counterBump, counterGet, h]
    · simp [counterBump, counterGet, hk, ih]

lemma classSum_incrementCounter (c : Counter) (k : String)
    (hk : k = "healthy" ∨ k = "moderate" ∨ k = "abnormal") :
    classSum (incrementCounter c k) = classSum c + 1 := by
  have hne : k ≠ "" := by rcases hk with rfl | rfl | rfl <;> decide
  unfold incrementCounter
  rw [if_neg hne]
  unfold classSum
  rcases hk with rfl | rfl | rfl
  · rw [counterGet_counterBump_self c "healthy",
      counterGet_counterBump_ne c "healthy" "moderate" (by decide),
      counterGet_counterBump_ne c "healthy" "abnormal" (by decide)]
    omega
  · rw [counterGet_counterBump_self c "moderate",
      counterGet_counterBump_ne c "moderate" "healthy" (by decide),
      counterGet_counterBump_ne c "moderate" "abnormal" (by decide)]
    omega
  · rw [counterGet_counterBump_self c "abnormal",
      counterGet_counterBump_ne c "abnormal" "healthy" (by decide),
      counterGet_counterBump_ne c "abnormal" "moderate" (by decide)]
    omega

lemma distSum_bumpDistribution (d : Distribution) (x : Int) :
    distSum (bumpDistribution d x) = distSum d + 1 := by
  unfold bumpDistribution
  split_ifs <;> simp [distSum] <;> omega

lemma statsStep_totalSubmissions (acc : Stats × Int × Int × Int) (sub : Submission) :
    (statsStep acc sub).1.totalSubmissions = acc.1.totalSubmissions := rfl

lemma statsStep_healthClassifications (acc : Stats × Int × Int × Int) (sub : Submission) :
    (statsStep acc sub).1.healthClassifications =
      incrementCounter acc.1.healthClassifications sub.healthClassification := rfl

lemma statsStep_distribution (acc : Stats × Int × Int × Int) (sub : Submission) :
    (statsStep acc sub).1.healthScores.distribution =
      bumpDistribution acc.1.healthScores.distribution sub.healthScore := rfl

lemma foldl_statsStep_counts (l : List Submission) :
    ∀ acc : Stats × Int × Int × Int,
      (∀ s ∈ l, s.healthClassification = "healthy" ∨ s.healthClassification = "moderate" ∨
        s.healthClassification = "abnormal") →
      (l.foldl statsStep acc).1.totalSubmissions = acc.1.totalSubmissions ∧
      classSum (l.foldl statsStep acc).1.healthClassifications =
        classSum acc.1.healthClassifications + l.length ∧
      distSum (l.foldl statsStep acc).1.healthScores.distribution =
        distSum acc.1.healthScores.distribution + l.length := by
  induction l with
  | nil =>
    intro acc _
    simp
  | cons a l ih =>
    intro acc h
    obtain ⟨iht, ihc, ihd⟩ := ih (statsStep acc a) (fun s hs => h s (List.mem_cons_of_mem a hs))
    refine ⟨?_, ?_, ?_⟩
    · rw [List.foldl_cons, iht, statsStep_totalSubmissions]
    · rw [List.foldl_cons, ihc, statsStep_healthClassifications,
        classSum_incrementCounter _ _ (h a (List.mem_cons_self a l)), List.length_cons]
      omega
    · rw [List.foldl_cons, ihd, statsStep_distribution, distSum_bumpDistribution,
        List.length_cons]
      omega

/-- C10: for every submissions list whose entries satisfy the write-time
validator's conditions (classification among the three enum values and an
integral score in [0, 100]), the recomputed statistics record has
totalSubmissions equal to the list length, its three classification
counters sum to that length, and its five score-distribution buckets sum
to that length. -/
theorem statistics_counter_totals (subs : List Submission) (now : Int)
    (h : ∀ s ∈ subs,
      (s.healthClassification = "healthy" ∨ s.healthClassification = "moderate" ∨
        s.healthClassification = "abnormal") ∧
      0 ≤ s.healthScore ∧ s.healthScore ≤ 100) :
    (updateStatisticsPure subs now).totalSubmissions = subs.length ∧
    classSum (updateStatisticsPure subs now).healthClassifications = subs.length ∧
    distSum (updateStatisticsPure subs now).healthScores.distribution = subs.length := by
  obtain ⟨ht, hc, hd⟩ := foldl_statsStep_counts subs (initialStatsFor subs now, 0, 100, 0)
    (fun s hs => (h s hs).1)
  have e1 : (updateStatisticsPure subs now).totalSubmissions =
      (subs.foldl statsStep (initialStatsFor subs now, 0, 100, 0)).1.totalSubmissions := rfl
  have e2 : (updateStatisticsPure subs now).healthClassifications =
      (subs.foldl statsStep (initialStatsFor subs now, 0, 100, 0)).1.healthClassifications := rfl
  have e3 : (updateStatisticsPure subs now).healthScores.distribution =
      (subs.foldl statsStep (initialStatsFor subs now, 0, 100, 0)).1.healthScores.distribution := rfl
  have i1 : (initialStatsFor subs now).totalSubmissions = subs.length := rfl
  have i2 : classSum (initialStatsFor subs now).healthClassifications = 0 := rfl
  have i3 : distSum (initialStatsFor subs now).healthScores.distribution = 0 := rfl
  refine ⟨?_, ?_, ?_⟩
  · rw [e1, ht, i1]
  · rw [e2, hc, i2, Nat.zero_add]
  · rw [e3, hd, i3, Nat.zero_add]

/-- C10 witness: the totals hold on a concrete one-element collection. -/
theorem statistics_counter_totals_witness :
    (updateStatisticsPure [exampleSubmission] 0).totalSubmissions = [exampleSubmission].length ∧
    classSum (updateStatisticsPure [exampleSubmission] 0).healthClassifications =
      [exampleSubmission].length ∧
    distSum (updateStatisticsPure [exampleSubmission] 0).healthScores.distribution =
      [exampleSubmission].length :=
  statistics_counter_totals [exampleSubmission] 0 (by decide)
